import Mathlib

/-!
Verification of the `travis` webhook-verification library (`travis.go`)
against its natural-language specification.

The Go source is shallowly embedded: pure functions become Lean functions,
the single piece of mutable state (the package-level cached public key
`travisPubKey`) is threaded explicitly, Go's fallible calls return an
explicit outcome type, and a Go runtime panic is a distinguished outcome
constructor.  Go standard-library primitives that the code calls
(`pem.Decode`, `x509.ParsePKIXPublicKey`, `http.Get`, `json` parsing into
an AST, base64 decoding, SHA-1, `rsa.VerifyPKCS1v15`, `time` parsing and
formatting) are not part of this repository; they are modelled as oracle
parameters bundled in an environment structure, so every theorem holds for
every possible behaviour of those primitives, and concrete instantiations
evaluate the definitions on explicit inputs.
-/

/-- Outcome of a Go call: a normal value, an error return, or a runtime
panic (which in Go aborts the call chain rather than returning). -/
inductive GoOutcome (α : Type) where
  | ok (a : α)
  | err (msg : String)
  | panic (msg : String)
deriving DecidableEq, Repr

/-- Model of `rsa.PublicKey` (modulus `N` and exponent `E`). -/
structure RSAPublicKey where
  N : Int
  E : Int
deriving DecidableEq, Repr

/-- Result of `x509.ParsePKIXPublicKey`: an `interface` value that holds
either an `*rsa.PublicKey` or a public key of some other dynamic type
(e.g. `*ecdsa.PublicKey`), identified here by its type name. -/
inductive PKIXPublicKey where
  | rsa (k : RSAPublicKey)
  | nonRSA (kind : String)
deriving DecidableEq, Repr

/-- Model of `pem.Block`: the block label and the decoded body bytes
(the `Headers` field is never read by this code and is omitted). -/
structure PemBlock where
  type : String
  bytes : List Nat
deriving DecidableEq, Repr

/-- JSON abstract syntax tree.  Numbers are modelled as integers: every
numeric field of the repository's data model is a Go integer type, and
`encoding/json` rejects non-integral numbers for those fields. -/
inductive Json where
  | null
  | bool (b : Bool)
  | num (n : Int)
  | str (s : String)
  | arr (elems : List Json)
  | obj (members : List (String × Json))

/-- Model of Go `time.Time` values as carried inside `Payload`: the value
is abstract (represented by a `String` internal form); `parse` and
`format` model `time.Time` JSON unmarshalling/marshalling, and
`parse_format` records the standard-library guarantee that parsing the
marshalled form of a time recovers that time. -/
structure TimeCodec where
  parse : String → Option String
  format : String → String
  parse_format : ∀ t, parse (format t) = some t

/-- The identity codec: a concrete `TimeCodec` used to evaluate the
definitions on explicit inputs. -/
def idCodec : TimeCodec :=
  { parse := fun s => some s
    format := fun s => s
    parse_format := fun _ => rfl }

/-- Color is a color that represents the state inside the webhook
(`type Color int`). -/
abbrev Color := Int

/-- Passed is the color 0x39AA56. -/
def Passed : Color := 3779158

/-- Fail is the color 0xDB4545. -/
def Fail : Color := 14370117

/-- InProgress is the color 0xEDDE3F. -/
def InProgress : Color := 15588927

/-- Cancel is the color 0x9D9D9D. -/
def Cancel : Color := 10329501

/-- Config field of the payload (`sudo`, `dist`, `language`). -/
structure Config where
  Sudo : Bool
  Dist : String
  Language : String
deriving DecidableEq, Repr

/-- Repository field of the payload (`id`, `name`, `owner_name`, `url`). -/
structure Repository where
  ID : Int
  Name : String
  OwnerName : String
  URL : String
deriving DecidableEq, Repr

/-- Payload for travis.  Field names follow the Go struct; `Type` is
spelled `Type'` because `Type` is reserved in Lean.  Go `int`/`int64`
fields are modelled as `Int` (no claim involves overflow) and the three
`time.Time` fields by their abstract internal form (see `TimeCodec`). -/
structure Payload where
  ID : Int
  Number : String
  Config : Option Config
  Type' : String
  State : String
  Status : Int
  Result : Int
  StatusMessage : String
  ResultMessage : String
  StartedAt : String
  FinishedAt : String
  Duration : Int
  BuildURL : String
  CommitID : Int
  Commit : String
  BaseCommit : String
  HeadCommit : String
  Branch : String
  Message : String
  CompareURL : String
  CommitedAt : String
  AuthorName : String
  AuthorEmail : String
  CommiterName : String
  CommiterEmail : String
  PullRequest : Int
  PullRequestNumber : Int
  PullRequestTitle : String
  Tag : String
  Repository : Option Repository
deriving DecidableEq, Repr

/-- The zero value of `Payload` (`new(Payload)` in Go). -/
def zeroPayload : Payload :=
  { ID := 0, Number := "", Config := none, Type' := "", State := ""
    Status := 0, Result := 0, StatusMessage := "", ResultMessage := ""
    StartedAt := "", FinishedAt := "", Duration := 0, BuildURL := ""
    CommitID := 0, Commit := "", BaseCommit := "", HeadCommit := ""
    Branch := "", Message := "", CompareURL := "", CommitedAt := ""
    AuthorName := "", AuthorEmail := "", CommiterName := ""
    CommiterEmail := "", PullRequest := 0, PullRequestNumber := 0
    PullRequestTitle := "", Tag := "", Repository := none }

/-- Pending returns true if a build has been requested. -/
def Payload.Pending (p : Payload) : Bool :=
  p.StatusMessage == "Pending" || p.ResultMessage == "Pending"

/-- Passed returns true if the build completed successfully. -/
def Payload.Passed (p : Payload) : Bool :=
  p.StatusMessage == "Passed" || p.ResultMessage == "Passed"

/-- Fixed returns true if the build completed successfully after a
previously failed build. -/
def Payload.Fixed (p : Payload) : Bool :=
  p.StatusMessage == "Fixed" || p.ResultMessage == "Fixed"

/-- Broken returns true if the build completed in failure after a
previously successful build. -/
def Payload.Broken (p : Payload) : Bool :=
  p.StatusMessage == "Broken" || p.ResultMessage == "Broken"

/-- Failed returns true if the build is the first build for a new branch
and has failed. -/
def Payload.Failed (p : Payload) : Bool :=
  p.StatusMessage == "Failed" || p.ResultMessage == "Failed"

/-- StillFailing returns true if the build completed in failure after a
previously failed build. -/
def Payload.StillFailing (p : Payload) : Bool :=
  p.StatusMessage == "Still Failing" || p.ResultMessage == "Still Failing"

/-- Canceled returns true if the build was canceled. -/
def Payload.Canceled (p : Payload) : Bool :=
  p.StatusMessage == "Canceled" || p.ResultMessage == "Canceled"

/-- Errored returns true if the build has errored. -/
def Payload.Errored (p : Payload) : Bool :=
  p.StatusMessage == "Errored" || p.ResultMessage == "Errored"

/-- IsPullRequest returns true if the event was caused by a pull request. -/
def Payload.IsPullRequest (p : Payload) : Bool :=
  p.Type' == "pull_request"

/-- IsPush returns true if the event was caused by a push. -/
def Payload.IsPush (p : Payload) : Bool :=
  p.Type' == "push"

/-- IsCron returns true if the event was caused by a cron. -/
def Payload.IsCron (p : Payload) : Bool :=
  p.Type' == "cron"

/-- IsAPI returns true if the event was caused by an api. -/
def Payload.IsAPI (p : Payload) : Bool :=
  p.Type' == "api"

/-- Read a JSON value as a Go integer (`encoding/json` accepts a number). -/
def asInt : Json → Option Int
  | .num n => some n
  | _ => none

/-- Read a JSON value as a Go string. -/
def asStr : Json → Option String
  | .str s => some s
  | _ => none

/-- Read a JSON value as a Go bool. -/
def asBool : Json → Option Bool
  | .bool b => some b
  | _ => none

/-- One `encoding/json` member-decoding step for a scalar struct field:
JSON `null` leaves the struct unchanged, a value of the expected kind
updates the field through `set`, anything else is an unmarshalling
error. -/
def decAs {α β : Type} (read : Json → Option α) (set : α → β) (keep : β) :
    Json → Except String β
  | .null => .ok keep
  | v =>
    match read v with
    | some a => .ok (set a)
    | none => .error "cannot unmarshal"

/-- One `encoding/json` member-decoding step for a `time.Time` field: the
member must be a JSON string that the time codec can parse; `null` is a
no-op. -/
def decTimeAs {β : Type} (c : TimeCodec) (set : String → β) (keep : β) :
    Json → Except String β
  | .null => .ok keep
  | .str s =>
    match c.parse s with
    | some t => .ok (set t)
    | none => .error "cannot unmarshal"
  | _ => .error "cannot unmarshal"

/-- One `encoding/json` member-decoding step for a pointer-to-struct
field: `null` sets the pointer to nil, an object decodes into a fresh
value, anything else is an unmarshalling error. -/
def decPtrAs {γ β : Type} (dec : List (String × Json) → Except String γ)
    (set : Option γ → β) : Json → Except String β
  | .null => .ok (set none)
  | .obj fs => (dec fs).map (fun x => set (some x))
  | _ => .error "cannot unmarshal"

/-- The zero value of `Config`. -/
def zeroConfig : Config := { Sudo := false, Dist := "", Language := "" }

/-- The zero value of `Repository`. -/
def zeroRepository : Repository := { ID := 0, Name := "", OwnerName := "", URL := "" }

/-- Decoding one JSON object member into `Config`, following the struct
tags `sudo`, `dist`, `language`; unknown members are ignored, and for
duplicate members the last occurrence wins (as in `encoding/json`). -/
def stepConfig (acc : Config) (kv : String × Json) : Except String Config :=
  match kv with
  | (k, v) =>
    if k = "sudo" then decAs asBool (fun x => { acc with Sudo := x }) acc v
    else if k = "dist" then decAs asStr (fun x => { acc with Dist := x }) acc v
    else if k = "language" then decAs asStr (fun x => { acc with Language := x }) acc v
    else .ok acc

/-- Decode a JSON object body into `Config`. -/
def decConfig (fs : List (String × Json)) : Except String Config :=
  List.foldlM stepConfig zeroConfig fs

/-- Decoding one JSON object member into `Repository`, following the
struct tags `id`, `name`, `owner_name`, `url`. -/
def stepRepository (acc : Repository) (kv : String × Json) : Except String Repository :=
  match kv with
  | (k, v) =>
    if k = "id" then decAs asInt (fun x => { acc with ID := x }) acc v
    else if k = "name" then decAs asStr (fun x => { acc with Name := x }) acc v
    else if k = "owner_name" then decAs asStr (fun x => { acc with OwnerName := x }) acc v
    else if k = "url" then decAs asStr (fun x => { acc with URL := x }) acc v
    else .ok acc

/-- Decode a JSON object body into `Repository`. -/
def decRepository (fs : List (String × Json)) : Except String Repository :=
  List.foldlM stepRepository zeroRepository fs

/-- Decoding one JSON object member into `Payload`, following the Go
struct tags in declaration order; unknown members are ignored, duplicate
members are processed in order so the last occurrence wins. -/
def stepPayload (c : TimeCodec) (acc : Payload) (kv : String × Json) : Except String Payload :=
  match kv with
  | (k, v) =>
    if k = "id" then decAs asInt (fun x => { acc with ID := x }) acc v
    else if k = "number" then decAs asStr (fun x => { acc with Number := x }) acc v
    else if k = "config" then decPtrAs decConfig (fun x => { acc with Config := x }) v
    else if k = "type" then decAs asStr (fun x => { acc with Type' := x }) acc v
    else if k = "state" then decAs asStr (fun x => { acc with State := x }) acc v
    else if k = "status" then decAs asInt (fun x => { acc with Status := x }) acc v
    else if k = "result" then decAs asInt (fun x => { acc with Result := x }) acc v
    else if k = "status_message" then decAs asStr (fun x => { acc with StatusMessage := x }) acc v
    else if k = "result_message" then decAs asStr (fun x => { acc with ResultMessage := x }) acc v
    else if k = "started_at" then decTimeAs c (fun x => { acc with StartedAt := x }) acc v
    else if k = "finished_at" then decTimeAs c (fun x => { acc with FinishedAt := x }) acc v
    else if k = "duration" then decAs asInt (fun x => { acc with Duration := x }) acc v
    else if k = "build_url" then decAs asStr (fun x => { acc with BuildURL := x }) acc v
    else if k = "commit_id" then decAs asInt (fun x => { acc with CommitID := x }) acc v
    else if k = "commit" then decAs asStr (fun x => { acc with Commit := x }) acc v
    else if k = "base_commit" then decAs asStr (fun x => { acc with BaseCommit := x }) acc v
    else if k = "head_commit" then decAs asStr (fun x => { acc with HeadCommit := x }) acc v
    else if k = "branch" then decAs asStr (fun x => { acc with Branch := x }) acc v
    else if k = "message" then decAs asStr (fun x => { acc with Message := x }) acc v
    else if k = "compare_url" then decAs asStr (fun x => { acc with CompareURL := x }) acc v
    else if k = "commited_at" then decTimeAs c (fun x => { acc with CommitedAt := x }) acc v
    else if k = "author_name" then decAs asStr (fun x => { acc with AuthorName := x }) acc v
    else if k = "author_email" then decAs asStr (fun x => { acc with AuthorEmail := x }) acc v
    else if k = "commiter_name" then decAs asStr (fun x => { acc with CommiterName := x }) acc v
    else if k = "commiter_email" then decAs asStr (fun x => { acc with CommiterEmail := x }) acc v
    else if k = "pull_request" then decAs asInt (fun x => { acc with PullRequest := x }) acc v
    else if k = "pull_request_number" then decAs asInt (fun x => { acc with PullRequestNumber := x }) acc v
    else if k = "pull_request_title" then decAs asStr (fun x => { acc with PullRequestTitle := x }) acc v
    else if k = "tag" then decAs asStr (fun x => { acc with Tag := x }) acc v
    else if k = "repository" then decPtrAs decRepository (fun x => { acc with Repository := x }) v
    else .ok acc

/-- Decode a JSON value into `Payload` (`json.Unmarshal` semantics for a
struct target: an object decodes member-by-member starting from the zero
value, the literal `null` is a no-op leaving the zero value, anything
else is an unmarshalling error). -/
def decodePayload (c : TimeCodec) (j : Json) : Except String Payload :=
  match j with
  | .null => .ok zeroPayload
  | .obj fs => List.foldlM (stepPayload c) zeroPayload fs
  | _ => .error "cannot unmarshal"

/-- The member emitted for an `int`/`int64` field with `omitempty`:
omitted when zero. -/
def segInt (k : String) (n : Int) : List (String × Json) :=
  if n = 0 then [] else [(k, Json.num n)]

/-- The member emitted for a `string` field with `omitempty`: omitted
when empty. -/
def segStr (k : String) (s : String) : List (String × Json) :=
  if s = "" then [] else [(k, Json.str s)]

/-- The member emitted for a `bool` field with `omitempty`: omitted when
false. -/
def segBool (k : String) (b : Bool) : List (String × Json) :=
  if b = false then [] else [(k, Json.bool b)]

/-- The member emitted for a `time.Time` field: always present, because
`omitempty` never treats a struct value as empty. -/
def segTime (c : TimeCodec) (k : String) (t : String) : List (String × Json) :=
  [(k, Json.str (c.format t))]

/-- The member emitted for a pointer-to-struct field with `omitempty`:
omitted when nil, otherwise the marshalled struct. -/
def segPtr {γ : Type} (k : String) (o : Option γ) (enc : γ → Json) :
    List (String × Json) :=
  match o with
  | none => []
  | some x => [(k, enc x)]

/-- Marshal `Config` back to JSON, honouring the `omitempty` options. -/
def encodeConfig (cf : Config) : Json :=
  .obj (segBool "sudo" cf.Sudo ++ (segStr "dist" cf.Dist ++ segStr "language" cf.Language))

/-- Marshal `Repository` back to JSON with `omitempty`. -/
def encodeRepository (rp : Repository) : Json :=
  .obj (segInt "id" rp.ID ++ (segStr "name" rp.Name ++
    (segStr "owner_name" rp.OwnerName ++ segStr "url" rp.URL)))

/-- The members produced by marshalling a `Payload`, in struct order,
honouring `omitempty`: zero numbers, empty strings and nil pointers are
omitted; the three `time.Time` fields are always emitted. -/
def encodeFields (c : TimeCodec) (p : Payload) : List (String × Json) :=
  segInt "id" p.ID ++
  (segStr "number" p.Number ++
  (segPtr "config" p.Config encodeConfig ++
  (segStr "type" p.Type' ++
  (segStr "state" p.State ++
  (segInt "status" p.Status ++
  (segInt "result" p.Result ++
  (segStr "status_message" p.StatusMessage ++
  (segStr "result_message" p.ResultMessage ++
  (segTime c "started_at" p.StartedAt ++
  (segTime c "finished_at" p.FinishedAt ++
  (segInt "duration" p.Duration ++
  (segStr "build_url" p.BuildURL ++
  (segInt "commit_id" p.CommitID ++
  (segStr "commit" p.Commit ++
  (segStr "base_commit" p.BaseCommit ++
  (segStr "head_commit" p.HeadCommit ++
  (segStr "branch" p.Branch ++
  (segStr "message" p.Message ++
  (segStr "compare_url" p.CompareURL ++
  (segTime c "commited_at" p.CommitedAt ++
  (segStr "author_name" p.AuthorName ++
  (segStr "author_email" p.AuthorEmail ++
  (segStr "commiter_name" p.CommiterName ++
  (segStr "commiter_email" p.CommiterEmail ++
  (segInt "pull_request" p.PullRequest ++
  (segInt "pull_request_number" p.PullRequestNumber ++
  (segStr "pull_request_title" p.PullRequestTitle ++
  (segStr "tag" p.Tag ++
  segPtr "repository" p.Repository encodeRepository
  ))))))))))))))))))))))))))))

/-- Marshal a `Payload` to JSON (`json.Marshal` semantics). -/
def encodePayload (c : TimeCodec) (p : Payload) : Json :=
  .obj (encodeFields c p)

/-- Assets section of the Travis configuration document. -/
structure ConfigAssets where
  host : String

/-- Pusher section of the Travis configuration document. -/
structure ConfigPusher where
  key : String

/-- Github section of the Travis configuration document. -/
structure ConfigGithub where
  apiURL : String
  scopes : List String

/-- Webhook section holding the provider's PEM public key text. -/
structure ConfigWebhook where
  publicKey : String

/-- Notifications section of the Travis configuration document. -/
structure ConfigNotifications where
  webhook : ConfigWebhook

/-- The `config` object of the Travis configuration document
(`configKey`'s anonymous inner struct in the source). -/
structure TravisConfig where
  host : String
  shortenHost : String
  assets : ConfigAssets
  pusher : ConfigPusher
  github : ConfigGithub
  notifications : ConfigNotifications

/-- Mirror of the source's `configKey` struct: the JSON shape of the
response of the Travis configuration endpoint. -/
structure configKey where
  config : TravisConfig

/-- Model of an inbound `http.Request` as the code reads it: the method,
the headers, and the decoded url-encoded form. -/
structure Request where
  method : String
  headers : List (String × String)
  form : List (String × String)

/-- `http.Header.Get`: the header value, or the empty string when the
header is absent. -/
def headerGet (r : Request) (k : String) : String :=
  (List.lookup k r.headers).getD ""

/-- `http.Request.FormValue`: the form field value, or the empty string
when the field is absent. -/
def formValue (r : Request) (k : String) : String :=
  (List.lookup k r.form).getD ""

/-- Oracle environment bundling the Go standard-library primitives the
code calls.  Every theorem below quantifies over this environment, so it
holds for every behaviour of the standard library; concrete
instantiations are used to evaluate the code on explicit inputs.
`httpGet` is the outcome of `http.Get` on the fixed configuration URL
(the body text on success), `decodeConfigKey` is `json.Decoder.Decode`
into `configKey`, `b64Decode` is `base64.StdEncoding.DecodeString`,
`sha1Sum` is the SHA-1 digest of a byte string, `rsaVerify` is the
success of `rsa.VerifyPKCS1v15`, and `jsonParse` is the parse of a byte
string into the JSON AST. -/
structure StdEnv where
  pemDecode : String → Option PemBlock
  parsePKIX : List Nat → Except Unit PKIXPublicKey
  httpGet : Except Unit String
  decodeConfigKey : String → Option configKey
  b64Decode : String → Option (List Nat)
  sha1Sum : String → List Nat
  rsaVerify : RSAPublicKey → List Nat → List Nat → Bool
  jsonParse : String → Option Json
  timeCodec : TimeCodec

/-- Model of `fmt`'s `%q` verb on a string with no characters needing an
escape: the string wrapped in double quotes. -/
def goQuote (s : String) : String := "\"" ++ s ++ "\""

/-- `parsePublicKey` from the source: PEM-decode the key text, require
block label "PUBLIC KEY", parse the body as a PKIX public key, and
return it after the unchecked type assertion `publicKey.(*rsa.PublicKey)`
— which is a runtime panic when the parsed key is not an RSA key. -/
def parsePublicKey (env : StdEnv) (key : String) : GoOutcome RSAPublicKey :=
  match env.pemDecode key with
  | none => .err "invalid public key"
  | some block =>
    if block.type ≠ "PUBLIC KEY" then .err "invalid public key"
    else
      match env.parsePKIX block.bytes with
      | .error _ => .err "invalid public key"
      | .ok (.rsa k) => .ok k
      | .ok (.nonRSA kind) =>
        .panic ("interface conversion: " ++ kind ++ " is not *rsa.PublicKey")

/-- `travisPublicKey` from the source, with the package-level cache
`travisPubKey` threaded explicitly: the input cache state is the second
argument and the output cache state is the second component of the
result. -/
def travisPublicKey (env : StdEnv) (st : Option RSAPublicKey) :
    GoOutcome RSAPublicKey × Option RSAPublicKey :=
  match st with
  | some k => (.ok k, st)
  | none =>
    match env.httpGet with
    | .error _ => (.err "cannot fetch travis public key", none)
    | .ok body =>
      match env.decodeConfigKey body with
      | none => (.err "cannot decode travis public key", none)
      | some t =>
        match parsePublicKey env t.config.notifications.webhook.publicKey with
        | .err e => (.err e, none)
        | .panic m => (.panic m, none)
        | .ok key => (.ok key, some key)

/-- `parsePayloadSignature` from the source: read the `Signature` header,
fail when it is absent or empty, base64-decode it, and return the raw
bytes. -/
def parsePayloadSignature (env : StdEnv) (r : Request) : Except String (List Nat) :=
  let signature := headerGet r "Signature"
  if signature = "" then .error "missing Signature header"
  else
    match env.b64Decode signature with
    | none => .error "cannot decode signature"
    | some b64 => .ok b64

/-- `payloadDigest` from the source: the SHA-1 digest of the payload
text's bytes. -/
def payloadDigest (env : StdEnv) (payload : String) : List Nat :=
  env.sha1Sum payload

/-- `GetPayload` from the source: parse the payload from a reader (the
reader is modelled by the byte text it yields, `none` for a nil
reader). -/
def GetPayload (env : StdEnv) (r : Option String) : GoOutcome Payload :=
  match r with
  | none => .err "can't parse from nil reader"
  | some s =>
    match env.jsonParse s with
    | none => .err "cannot decode payload"
    | some j =>
      match decodePayload env.timeCodec j with
      | .error _ => .err "cannot decode payload"
      | .ok p => .ok p

/-- `GetPayloadFromRequest` from the source: check method and
content-type, resolve the cached/fetched public key, extract the
signature, verify the SHA-1 digest of the `payload` form field with
PKCS#1 v1.5, and decode the payload JSON.  The cache state is threaded
as in `travisPublicKey`. -/
def GetPayloadFromRequest (env : StdEnv) (r : Request) (st : Option RSAPublicKey) :
    GoOutcome Payload × Option RSAPublicKey :=
  if r.method ≠ "POST" then
    (.err ("wrong request method " ++ goQuote r.method ++ " instead of POST"), st)
  else if headerGet r "Content-Type" ≠ "application/x-www-form-urlencoded" then
    (.err ("wrong Content-Type header, got " ++ headerGet r "Content-Type" ++
      " != want application/x-www-form-urlencoded"), st)
  else
    match travisPublicKey env st with
    | (.err e, st') => (.err e, st')
    | (.panic m, st') => (.panic m, st')
    | (.ok key, st') =>
      match parsePayloadSignature env r with
      | .error e => (.err e, st')
      | .ok signature =>
        let digest := payloadDigest env (formValue r "payload")
        if env.rsaVerify key digest signature then
          match env.jsonParse (formValue r "payload") with
          | none => (.err "cannot decode payload", st')
          | some j =>
            match decodePayload env.timeCodec j with
            | .error _ => (.err "cannot decode payload", st')
            | .ok p => (.ok p, st')
        else (.err "unauthorized payload", st')

/-- A small concrete RSA public key used to evaluate the definitions. -/
def k0 : RSAPublicKey := { N := 3233, E := 17 }

/-- A concrete environment in which every standard-library oracle fails
or returns nothing: the network is unreachable, nothing PEM/JSON/base64
decodes. -/
def envNone : StdEnv :=
  { pemDecode := fun _ => none
    parsePKIX := fun _ => .error ()
    httpGet := .error ()
    decodeConfigKey := fun _ => none
    b64Decode := fun _ => none
    sha1Sum := fun _ => []
    rsaVerify := fun _ _ _ => false
    jsonParse := fun _ => none
    timeCodec := idCodec }

/-- A PEM text standing for an ECDSA (non-RSA) public key, as produced
e.g. by `openssl ec -pubout`.  The environment `envECDSA` stipulates the
standard library's behaviour on it: `pem.Decode` yields a block with
label "PUBLIC KEY", and `x509.ParsePKIXPublicKey` parses its bytes into
an `*ecdsa.PublicKey` — exactly what the real standard library does on
any EC public key PEM. -/
def ecdsaPEM : String :=
  "-----BEGIN PUBLIC KEY-----\nMFkwEwYHKoZIzj0CAQYIKoZIzj0DAQcDQgAE\n-----END PUBLIC KEY-----\n"

/-- Environment whose pem/x509 oracles behave as the standard library
does on the ECDSA public key PEM `ecdsaPEM`. -/
def envECDSA : StdEnv :=
  { envNone with
    pemDecode := fun s =>
      if s = ecdsaPEM then some { type := "PUBLIC KEY", bytes := [48, 89] } else none
    parsePKIX := fun bs =>
      if bs = [48, 89] then .ok (.nonRSA "*ecdsa.PublicKey") else .error () }

/-- A PEM text standing for the provider's RSA public key. -/
def pemOK : String :=
  "-----BEGIN PUBLIC KEY-----\nMIIBIjANBgkqhkiG9w0BAQEFAAOCAQ8A\n-----END PUBLIC KEY-----\n"

/-- A fully successful environment up to signature verification: the key
endpoint is reachable and serves a configuration whose webhook key
PEM-decodes and PKIX-parses to the RSA key `k0`, the signature header
base64-decodes, but PKCS#1 v1.5 verification fails. -/
def envVerifyFalse : StdEnv :=
  { pemDecode := fun s =>
      if s = pemOK then some { type := "PUBLIC KEY", bytes := [48] } else none
    parsePKIX := fun bs => if bs = [48] then .ok (.rsa k0) else .error ()
    httpGet := .ok "cfgbody"
    decodeConfigKey := fun s =>
      if s = "cfgbody" then
        some { config :=
          { host := "travis-ci.org", shortenHost := "trvs.io"
            assets := { host := "" }, pusher := { key := "" }
            github := { apiURL := "", scopes := [] }
            notifications := { webhook := { publicKey := pemOK } } } }
      else none
    b64Decode := fun s => if s = "c2ln" then some [1, 2] else none
    sha1Sum := fun _ => [0]
    rsaVerify := fun _ _ _ => false
    jsonParse := fun _ => none
    timeCodec := idCodec }

/-- A GET request with otherwise-correct headers. -/
def reqGET : Request :=
  { method := "GET"
    headers := [("Content-Type", "application/x-www-form-urlencoded")]
    form := [] }

/-- A POST request with the right Content-Type but no Signature header. -/
def reqPOSTNoSig : Request :=
  { method := "POST"
    headers := [("Content-Type", "application/x-www-form-urlencoded")]
    form := [("payload", "x")] }

/-- A well-formed POST request carrying a Signature header and a payload
form field. -/
def reqPOSTSig : Request :=
  { method := "POST"
    headers := [("Content-Type", "application/x-www-form-urlencoded"), ("Signature", "c2ln")]
    form := [("payload", "payloadtext")] }

/-- C5: the payload whose only populated field is `StatusMessage = "Passed"`
satisfies `Passed` and none of the other seven state predicates; the
payload whose only populated field is `Type = "cron"` satisfies `IsCron`
and none of `IsPush`, `IsAPI`, `IsPullRequest`; and the event-type
predicates are exact, case-sensitive comparisons against the fixed
vocabulary with no normalization (witnessed generally for the type
predicates and on concrete case/whitespace variants for the state
predicates). -/
theorem payload_predicates_vocabulary :
    (({ zeroPayload with StatusMessage := "Passed" } : Payload).Passed = true
      ∧ ({ zeroPayload with StatusMessage := "Passed" } : Payload).Pending = false
      ∧ ({ zeroPayload with StatusMessage := "Passed" } : Payload).Fixed = false
      ∧ ({ zeroPayload with StatusMessage := "Passed" } : Payload).Broken = false
      ∧ ({ zeroPayload with StatusMessage := "Passed" } : Payload).Failed = false
      ∧ ({ zeroPayload with StatusMessage := "Passed" } : Payload).StillFailing = false
      ∧ ({ zeroPayload with StatusMessage := "Passed" } : Payload).Canceled = false
      ∧ ({ zeroPayload with StatusMessage := "Passed" } : Payload).Errored = false)
    ∧ (({ zeroPayload with Type' := "cron" } : Payload).IsCron = true
      ∧ ({ zeroPayload with Type' := "cron" } : Payload).IsPush = false
      ∧ ({ zeroPayload with Type' := "cron" } : Payload).IsAPI = false
      ∧ ({ zeroPayload with Type' := "cron" } : Payload).IsPullRequest = false)
    ∧ (∀ p : Payload, p.IsCron = true ↔ p.Type' = "cron")
    ∧ (∀ p : Payload, p.IsPush = true ↔ p.Type' = "push")
    ∧ (∀ p : Payload, p.IsAPI = true ↔ p.Type' = "api")
    ∧ (∀ p : Payload, p.IsPullRequest = true ↔ p.Type' = "pull_request")
    ∧ ({ zeroPayload with StatusMessage := "passed" } : Payload).Passed = false
    ∧ ({ zeroPayload with StatusMessage := "PASSED" } : Payload).Passed = false
    ∧ ({ zeroPayload with Type' := "Cron" } : Payload).IsCron = false
    ∧ ({ zeroPayload with Type' := " cron" } : Payload).IsCron = false := by
  refine ⟨by decide, by decide, ?_, ?_, ?_, ?_, by decide, by decide, by decide, by decide⟩
  all_goals intro p
  · simp [Payload.IsCron]
  · simp [Payload.IsPush]
  · simp [Payload.IsAPI]
  · simp [Payload.IsPullRequest]

/-- C6: each state predicate holds exactly when `StatusMessage` or
`ResultMessage` equals its vocabulary word, and consequently the state
predicates are not mutually exclusive: a payload with
`StatusMessage = "Passed"` and `ResultMessage = "Failed"` satisfies both
`Passed` and `Failed`. -/
theorem state_predicates_characterization :
    (∀ p : Payload, p.Pending = true ↔ (p.StatusMessage = "Pending" ∨ p.ResultMessage = "Pending"))
    ∧ (∀ p : Payload, p.Passed = true ↔ (p.StatusMessage = "Passed" ∨ p.ResultMessage = "Passed"))
    ∧ (∀ p : Payload, p.Fixed = true ↔ (p.StatusMessage = "Fixed" ∨ p.ResultMessage = "Fixed"))
    ∧ (∀ p : Payload, p.Broken = true ↔ (p.StatusMessage = "Broken" ∨ p.ResultMessage = "Broken"))
    ∧ (∀ p : Payload, p.Failed = true ↔ (p.StatusMessage = "Failed" ∨ p.ResultMessage = "Failed"))
    ∧ (∀ p : Payload, p.StillFailing = true ↔ (p.StatusMessage = "Still Failing" ∨ p.ResultMessage = "Still Failing"))
    ∧ (∀ p : Payload, p.Canceled = true ↔ (p.StatusMessage = "Canceled" ∨ p.ResultMessage = "Canceled"))
    ∧ (∀ p : Payload, p.Errored = true ↔ (p.StatusMessage = "Errored" ∨ p.ResultMessage = "Errored"))
    ∧ (({ zeroPayload with StatusMessage := "Passed", ResultMessage := "Failed" } : Payload).Passed = true
      ∧ ({ zeroPayload with StatusMessage := "Passed", ResultMessage := "Failed" } : Payload).Failed = true) := by
  refine ⟨?_, ?_, ?_, ?_, ?_, ?_, ?_, ?_, by decide⟩
  all_goals intro p
  · simp [Payload.Pending]
  · simp [Payload.Passed]
  · simp [Payload.Fixed]
  · simp [Payload.Broken]
  · simp [Payload.Failed]
  · simp [Payload.StillFailing]
  · simp [Payload.Canceled]
  · simp [Payload.Errored]

/-- C1: refuted on the code.  For an input whose PEM block has label
"PUBLIC KEY" and whose decoded bytes parse as a PKIX key that is not an
RSA key (here an ECDSA key, with the pem/x509 oracles behaving as the
standard library does on an EC public key PEM), `parsePublicKey` does
not surface the "invalid public key" rejection: it reaches the unchecked
type assertion `publicKey.(*rsa.PublicKey)` and panics. -/
theorem parsePublicKey_nonRSA_panics :
    parsePublicKey envECDSA ecdsaPEM
      = .panic "interface conversion: *ecdsa.PublicKey is not *rsa.PublicKey"
    ∧ (decide (parsePublicKey envECDSA ecdsaPEM
      = GoOutcome.err "invalid public key")) = false := by
  exact ⟨rfl, by decide⟩

/-- C3: counterexample to the claimed nil-reader error text —
`GetPayload nil` fails with "can't parse from nil reader", which differs
from the claimed "cannot parse from nil reader". -/
theorem GetPayload_nil_message_counterexample :
    GetPayload envNone none = .err "can't parse from nil reader"
    ∧ (decide ("can't parse from nil reader" = "cannot parse from nil reader")) = false := by
  exact ⟨rfl, by decide⟩

/-- C3 (amended): `GetPayload nil` always fails with the nil-stream error
"can't parse from nil reader"; on a stream whose contents are
syntactically invalid JSON it always fails with "cannot decode payload";
and it never panics on any input. -/
theorem GetPayload_error_behavior (env : StdEnv) :
    GetPayload env none = .err "can't parse from nil reader"
    ∧ (∀ s, env.jsonParse s = none → GetPayload env (some s) = .err "cannot decode payload")
    ∧ (∀ r m, ¬ GetPayload env r = .panic m) := by
  refine ⟨rfl, ?_, ?_⟩
  · intro s h
    simp [GetPayload, h]
  · intro r m
    cases r with
    | none => simp [GetPayload]
    | some s =>
      cases h : env.jsonParse s with
      | none => simp [GetPayload, h]
      | some j =>
        cases hd : decodePayload env.timeCodec j with
        | error e => simp [GetPayload, h, hd]
        | ok p => simp [GetPayload, h, hd]

/-- Witness for C3 (amended), at a concrete environment and stream. -/
theorem GetPayload_error_behavior_witness :
    GetPayload envNone none = .err "can't parse from nil reader"
    ∧ GetPayload envNone (some "not json") = .err "cannot decode payload" :=
  ⟨(GetPayload_error_behavior envNone).1,
    (GetPayload_error_behavior envNone).2.1 "not json" rfl⟩

/-- Helper: on a cache miss, `travisPublicKey` either succeeds and stores
exactly the fetched key, or errors/panics and leaves the cache empty. -/
theorem travisPublicKey_none_cases (env : StdEnv) :
    (∃ key, travisPublicKey env none = (.ok key, some key))
    ∨ (∃ e, travisPublicKey env none = (.err e, none))
    ∨ (∃ m, travisPublicKey env none = (.panic m, none)) := by
  rcases hg : env.httpGet with u | body
  · exact .inr (.inl ⟨"cannot fetch travis public key", by simp [travisPublicKey, hg]⟩)
  · rcases hd : env.decodeConfigKey body with _ | t
    · exact .inr (.inl ⟨"cannot decode travis public key", by simp [travisPublicKey, hg, hd]⟩)
    · rcases hp : parsePublicKey env t.config.notifications.webhook.publicKey with key | e | m
      · exact .inl ⟨key, by simp [travisPublicKey, hg, hd, hp]⟩
      · exact .inr (.inl ⟨e, by simp [travisPublicKey, hg, hd, hp]⟩)
      · exact .inr (.inr ⟨m, by simp [travisPublicKey, hg, hd, hp]⟩)

/-- C4: the key cache lifecycle is unset → set-once → reused: a cached
key is returned as-is, independently of the network environment (no
fetch); on a cache miss, a successful fetch-and-parse stores exactly the
returned key for future calls; and any failure (error or panic) leaves
the cache empty, so a later call re-attempts the fetch. -/
theorem travisPublicKey_cache_lifecycle (env env' : StdEnv) :
    (∀ k, travisPublicKey env (some k) = (.ok k, some k)
      ∧ travisPublicKey env (some k) = travisPublicKey env' (some k))
    ∧ (∀ key, (travisPublicKey env none).1 = .ok key → (travisPublicKey env none).2 = some key)
    ∧ (∀ e, (travisPublicKey env none).1 = .err e → (travisPublicKey env none).2 = none)
    ∧ (∀ m, (travisPublicKey env none).1 = .panic m → (travisPublicKey env none).2 = none) := by
  refine ⟨fun k => ⟨rfl, rfl⟩, ?_, ?_, ?_⟩ <;> intro x h <;>
    rcases travisPublicKey_none_cases env with ⟨key, hk⟩ | ⟨e, he⟩ | ⟨m, hm⟩ <;>
      simp_all

/-- Witness for C4: with a cached key the key is returned and kept; on a
cache miss in an environment whose fetch fails, the error is returned
and the cache stays empty. -/
theorem travisPublicKey_cache_lifecycle_witness :
    travisPublicKey envNone (some k0) = (.ok k0, some k0)
    ∧ (travisPublicKey envNone none).2 = none :=
  ⟨((travisPublicKey_cache_lifecycle envNone envNone).1 k0).1,
    (travisPublicKey_cache_lifecycle envNone envNone).2.2.1 "cannot fetch travis public key" rfl⟩

/-- C7: `GetPayloadFromRequest` rejects a non-POST request with an error
naming the actual method, and rejects a POST whose Content-Type is not
exactly "application/x-www-form-urlencoded" with an error naming the
actual header value; in both cases the result is independent of the
key/crypto environment and the key cache is untouched — i.e. the
rejection happens before any key fetch, signature extraction, or
cryptographic check. -/
theorem GetPayloadFromRequest_precondition_rejections
    (env env' : StdEnv) (st st' : Option RSAPublicKey) (r : Request) :
    (r.method ≠ "POST" →
      GetPayloadFromRequest env r st
        = (.err ("wrong request method " ++ goQuote r.method ++ " instead of POST"), st)
      ∧ (GetPayloadFromRequest env r st).1 = (GetPayloadFromRequest env' r st').1)
    ∧ (r.method = "POST" →
      headerGet r "Content-Type" ≠ "application/x-www-form-urlencoded" →
      GetPayloadFromRequest env r st
        = (.err ("wrong Content-Type header, got " ++ headerGet r "Content-Type" ++
            " != want application/x-www-form-urlencoded"), st)
      ∧ (GetPayloadFromRequest env r st).1 = (GetPayloadFromRequest env' r st').1) := by
  constructor
  · intro h
    constructor <;> simp [GetPayloadFromRequest, h]
  · intro hm hct
    constructor <;> simp [GetPayloadFromRequest, hm, hct]

/-- Witness for C7: a GET request with otherwise-correct headers is
rejected citing the method, before any environment interaction. -/
theorem GetPayloadFromRequest_precondition_rejections_witness :
    GetPayloadFromRequest envNone reqGET none
      = (.err "wrong request method \"GET\" instead of POST", none) :=
  ((GetPayloadFromRequest_precondition_rejections envNone envNone none none reqGET).1
    (by decide)).1

/-- C8: counterexample to the claimed error text — on a request with no
`Signature` header the extraction fails with "missing Signature header",
which differs from the claimed "missing header". -/
theorem parsePayloadSignature_message_counterexample :
    parsePayloadSignature envNone reqPOSTNoSig = .error "missing Signature header"
    ∧ (decide ("missing Signature header" = "missing header")) = false := by
  exact ⟨rfl, by decide⟩

/-- C8 (amended): signature extraction fails with "missing Signature
header" when the `Signature` header is absent or empty; when present but
not valid standard base64 it fails with "cannot decode signature"; and
otherwise it returns exactly the base64-decoded raw signature bytes with
no further validation. -/
theorem parsePayloadSignature_behavior (env : StdEnv) (r : Request) :
    (headerGet r "Signature" = "" →
      parsePayloadSignature env r = .error "missing Signature header")
    ∧ (headerGet r "Signature" ≠ "" →
      env.b64Decode (headerGet r "Signature") = none →
      parsePayloadSignature env r = .error "cannot decode signature")
    ∧ (∀ bs, headerGet r "Signature" ≠ "" →
      env.b64Decode (headerGet r "Signature") = some bs →
      parsePayloadSignature env r = .ok bs) := by
  refine ⟨?_, ?_, ?_⟩
  · intro h
    simp [parsePayloadSignature, h]
  · intro h hb
    simp [parsePayloadSignature, h, hb]
  · intro bs h hb
    simp [parsePayloadSignature, h, hb]

/-- Witness for C8 (amended): a missing header and a decodable header at
concrete requests and environments. -/
theorem parsePayloadSignature_behavior_witness :
    parsePayloadSignature envNone reqPOSTNoSig = .error "missing Signature header"
    ∧ parsePayloadSignature envVerifyFalse reqPOSTSig = .ok [1, 2] :=
  ⟨(parsePayloadSignature_behavior envNone reqPOSTNoSig).1 rfl,
    (parsePayloadSignature_behavior envVerifyFalse reqPOSTSig).2.2 [1, 2] (by decide) rfl⟩

/-- C9: whenever PKCS#1 v1.5 / SHA-1 verification of the signature
against the digest of the `payload` form field fails — for any sub-cause
— `GetPayloadFromRequest` returns the single generic error
"unauthorized payload" and produces no payload; the error does not
depend on which ingredient made verification fail. -/
theorem GetPayloadFromRequest_unauthorized_generic
    (env : StdEnv) (r : Request) (st st2 : Option RSAPublicKey)
    (key : RSAPublicKey) (sig : List Nat)
    (hm : r.method = "POST")
    (hct : headerGet r "Content-Type" = "application/x-www-form-urlencoded")
    (hkey : travisPublicKey env st = (.ok key, st2))
    (hsig : parsePayloadSignature env r = .ok sig)
    (hver : env.rsaVerify key (payloadDigest env (formValue r "payload")) sig = false) :
    GetPayloadFromRequest env r st = (.err "unauthorized payload", st2) := by
  simp [GetPayloadFromRequest, hm, hct, hkey, hsig, hver]

/-- Witness for C9: a well-formed POST in an environment where the fetch
and signature decoding succeed but verification fails yields exactly the
generic "unauthorized payload" rejection. -/
theorem GetPayloadFromRequest_unauthorized_generic_witness :
    GetPayloadFromRequest envVerifyFalse reqPOSTSig none
      = (.err "unauthorized payload", some k0) :=
  GetPayloadFromRequest_unauthorized_generic envVerifyFalse reqPOSTSig none (some k0)
    k0 [1, 2] rfl rfl rfl rfl rfl

/-- Helper: a fold step that succeeds lets `foldlM` continue on the rest. -/
theorem foldlM_except_cons_ok {α β ε : Type} (f : β → α → Except ε β) (b b' : β)
    (x : α) (rest : List α) (hstep : f b x = Except.ok b') :
    List.foldlM f b (x :: rest) = List.foldlM f b' rest := by
  rw [List.foldlM_cons, hstep]
  rfl

/-- Helper: folding over an `omitempty` integer member updates the
accumulator to the encoded value (when the value is zero the member is
absent and the accumulator is already there). -/
theorem fold_segInt {β ε : Type} (f : β → (String × Json) → Except ε β) (k : String)
    (n : Int) (b b' : β) (rest : List (String × Json))
    (hstep : f b (k, Json.num n) = Except.ok b') (hzero : n = 0 → b' = b) :
    List.foldlM f b (segInt k n ++ rest) = List.foldlM f b' rest := by
  unfold segInt
  by_cases h : n = 0
  · rw [if_pos h, List.nil_append, hzero h]
  · rw [if_neg h, List.cons_append, List.nil_append]
    exact foldlM_except_cons_ok f b b' _ rest hstep

/-- Helper: same as `fold_segInt` for an `omitempty` string member. -/
theorem fold_segStr {β ε : Type} (f : β → (String × Json) → Except ε β) (k : String)
    (s : String) (b b' : β) (rest : List (String × Json))
    (hstep : f b (k, Json.str s) = Except.ok b') (hzero : s = "" → b' = b) :
    List.foldlM f b (segStr k s ++ rest) = List.foldlM f b' rest := by
  unfold segStr
  by_cases h : s = ""
  · rw [if_pos h, List.nil_append, hzero h]
  · rw [if_neg h, List.cons_append, List.nil_append]
    exact foldlM_except_cons_ok f b b' _ rest hstep

/-- Helper: same as `fold_segInt` for an `omitempty` bool member. -/
theorem fold_segBool {β ε : Type} (f : β → (String × Json) → Except ε β) (k : String)
    (bb : Bool) (b b' : β) (rest : List (String × Json))
    (hstep : f b (k, Json.bool bb) = Except.ok b') (hzero : bb = false → b' = b) :
    List.foldlM f b (segBool k bb ++ rest) = List.foldlM f b' rest := by
  unfold segBool
  by_cases h : bb = false
  · rw [if_pos h, List.nil_append, hzero h]
  · rw [if_neg h, List.cons_append, List.nil_append]
    exact foldlM_except_cons_ok f b b' _ rest hstep

/-- Helper: folding a trailing `omitempty` string member yields the final
accumulator. -/
theorem fold_segStr_final {β ε : Type} (f : β → (String × Json) → Except ε β)
    (k : String) (s : String) (b b' : β)
    (hstep : f b (k, Json.str s) = Except.ok b') (hzero : s = "" → b' = b) :
    List.foldlM f b (segStr k s) = Except.ok b' := by
  unfold segStr
  by_cases h : s = ""
  · rw [if_pos h, hzero h]
    rfl
  · rw [if_neg h]
    rw [List.foldlM_cons, hstep]
    rfl

/-- Helper: `decPtrAs` on an object runs the nested decoder. -/
theorem decPtrAs_obj {γ β : Type} (dec : List (String × Json) → Except String γ)
    (set : Option γ → β) (fs : List (String × Json)) :
    decPtrAs dec set (.obj fs) = (dec fs).map (fun x => set (some x)) := rfl

/-- Helper: `decTimeAs` on a string consults the time codec. -/
theorem decTimeAs_str {β : Type} (c : TimeCodec) (set : String → β) (keep : β) (s : String) :
    decTimeAs c set keep (.str s)
      = (match c.parse s with
        | some t => Except.ok (set t)
        | none => Except.error "cannot unmarshal") := rfl

/-- Helper: decoding the marshalled form of a `Config` recovers it. -/
theorem decConfig_roundtrip (cf : Config) :
    decConfig (segBool "sudo" cf.Sudo ++ (segStr "dist" cf.Dist ++ segStr "language" cf.Language))
      = Except.ok cf := by
  show List.foldlM stepConfig zeroConfig _ = Except.ok cf
  refine Eq.trans (fold_segBool _ _ _ _ _ _ rfl (fun h => by rw [h]; rfl)) ?_
  refine Eq.trans (fold_segStr _ _ _ _ _ _ rfl (fun h => by rw [h]; rfl)) ?_
  exact fold_segStr_final _ _ _ _ _ rfl
    (fun h => by cases cf with | mk s d l => simp_all [zeroConfig])

/-- Helper: decoding the marshalled form of a `Repository` recovers it. -/
theorem decRepository_roundtrip (rp : Repository) :
    decRepository (segInt "id" rp.ID ++ (segStr "name" rp.Name ++
      (segStr "owner_name" rp.OwnerName ++ segStr "url" rp.URL))) = Except.ok rp := by
  show List.foldlM stepRepository zeroRepository _ = Except.ok rp
  refine Eq.trans (fold_segInt _ _ _ _ _ _ rfl (fun h => by rw [h]; rfl)) ?_
  refine Eq.trans (fold_segStr _ _ _ _ _ _ rfl (fun h => by rw [h]; rfl)) ?_
  refine Eq.trans (fold_segStr _ _ _ _ _ _ rfl (fun h => by rw [h]; rfl)) ?_
  exact fold_segStr_final _ _ _ _ _ rfl
    (fun h => by cases rp with | mk i n o u => simp_all [zeroRepository])

/-- Helper: the decode step for the `config` member of the marshalled
form sets the `Config` field to the nested round-tripped value. -/
theorem stepPayload_config (c : TimeCodec) (acc : Payload) (cf : Config) :
    stepPayload c acc ("config", encodeConfig cf)
      = Except.ok { acc with Config := some cf } := by
  show decPtrAs decConfig (fun x => ({ acc with Config := x } : Payload)) (encodeConfig cf)
      = Except.ok ({ acc with Config := some cf } : Payload)
  unfold encodeConfig
  rw [decPtrAs_obj, decConfig_roundtrip]
  rfl

/-- Helper: the decode step for the `repository` member of the marshalled
form sets the `Repository` field to the nested round-tripped value. -/
theorem stepPayload_repository (c : TimeCodec) (acc : Payload) (rp : Repository) :
    stepPayload c acc ("repository", encodeRepository rp)
      = Except.ok { acc with Repository := some rp } := by
  show decPtrAs decRepository (fun x => ({ acc with Repository := x } : Payload)) (encodeRepository rp)
      = Except.ok ({ acc with Repository := some rp } : Payload)
  unfold encodeRepository
  rw [decPtrAs_obj, decRepository_roundtrip]
  rfl

/-- Helper: the decode step for a marshalled `started_at` member recovers
the time value through the codec. -/
theorem stepPayload_started_at (c : TimeCodec) (acc : Payload) (t : String) :
    stepPayload c acc ("started_at", Json.str (c.format t))
      = Except.ok { acc with StartedAt := t } := by
  show decTimeAs c (fun x => { acc with StartedAt := x }) acc (Json.str (c.format t))
      = Except.ok { acc with StartedAt := t }
  rw [decTimeAs_str, c.parse_format]

/-- Helper: the decode step for a marshalled `finished_at` member. -/
theorem stepPayload_finished_at (c : TimeCodec) (acc : Payload) (t : String) :
    stepPayload c acc ("finished_at", Json.str (c.format t))
      = Except.ok { acc with FinishedAt := t } := by
  show decTimeAs c (fun x => { acc with FinishedAt := x }) acc (Json.str (c.format t))
      = Except.ok { acc with FinishedAt := t }
  rw [decTimeAs_str, c.parse_format]

/-- Helper: the decode step for a marshalled `commited_at` member. -/
theorem stepPayload_commited_at (c : TimeCodec) (acc : Payload) (t : String) :
    stepPayload c acc ("commited_at", Json.str (c.format t))
      = Except.ok { acc with CommitedAt := t } := by
  show decTimeAs c (fun x => { acc with CommitedAt := x }) acc (Json.str (c.format t))
      = Except.ok { acc with CommitedAt := t }
  rw [decTimeAs_str, c.parse_format]

/-- Helper: folding the always-present `started_at` member. -/
theorem fold_started_at (c : TimeCodec) (b : Payload) (t : String)
    (rest : List (String × Json)) :
    List.foldlM (stepPayload c) b (segTime c "started_at" t ++ rest)
      = List.foldlM (stepPayload c) { b with StartedAt := t } rest := by
  unfold segTime
  rw [List.cons_append, List.nil_append]
  exact foldlM_except_cons_ok _ _ _ _ _ (stepPayload_started_at c b t)

/-- Helper: folding the always-present `finished_at` member. -/
theorem fold_finished_at (c : TimeCodec) (b : Payload) (t : String)
    (rest : List (String × Json)) :
    List.foldlM (stepPayload c) b (segTime c "finished_at" t ++ rest)
      = List.foldlM (stepPayload c) { b with FinishedAt := t } rest := by
  unfold segTime
  rw [List.cons_append, List.nil_append]
  exact foldlM_except_cons_ok _ _ _ _ _ (stepPayload_finished_at c b t)

/-- Helper: folding the always-present `commited_at` member. -/
theorem fold_commited_at (c : TimeCodec) (b : Payload) (t : String)
    (rest : List (String × Json)) :
    List.foldlM (stepPayload c) b (segTime c "commited_at" t ++ rest)
      = List.foldlM (stepPayload c) { b with CommitedAt := t } rest := by
  unfold segTime
  rw [List.cons_append, List.nil_append]
  exact foldlM_except_cons_ok _ _ _ _ _ (stepPayload_commited_at c b t)

/-- Helper: folding the `omitempty` `config` member updates the `Config`
field to whatever optional value was marshalled. -/
theorem fold_config_seg (c : TimeCodec) (b : Payload) (o : Option Config)
    (rest : List (String × Json)) (hb : b.Config = none) :
    List.foldlM (stepPayload c) b (segPtr "config" o encodeConfig ++ rest)
      = List.foldlM (stepPayload c) { b with Config := o } rest := by
  cases o with
  | none =>
    have hbb : ({ b with Config := none } : Payload) = b := by
      cases b
      simp_all
    simp only [segPtr, List.nil_append]
    rw [hbb]
  | some cf =>
    simp only [segPtr, List.cons_append, List.nil_append]
    exact foldlM_except_cons_ok _ _ _ _ _ (stepPayload_config c b cf)

/-- Helper: folding the trailing `omitempty` `repository` member yields
the final payload. -/
theorem fold_repo_final (c : TimeCodec) (b : Payload) (o : Option Repository)
    (hb : b.Repository = none) :
    List.foldlM (stepPayload c) b (segPtr "repository" o encodeRepository)
      = Except.ok { b with Repository := o } := by
  cases o with
  | none =>
    have hbb : ({ b with Repository := none } : Payload) = b := by
      cases b
      simp_all
    simp only [segPtr]
    rw [hbb]
    rfl
  | some rp =>
    simp only [segPtr]
    rw [List.foldlM_cons, stepPayload_repository c b rp]
    rfl

set_option maxHeartbeats 2000000 in
/-- C2: decoding a valid JSON value of the Payload shape and re-encoding
the resulting payload loses or alters no populated field — formalized as
`decodePayload` being a left inverse of `encodePayload` on every payload
(in particular every payload obtained by decoding valid JSON), for every
time codec satisfying the standard library's parse/format round-trip. -/
theorem decodePayload_encodePayload_roundtrip (c : TimeCodec) (p : Payload) :
    decodePayload c (encodePayload c p) = Except.ok p := by
  show List.foldlM (stepPayload c) zeroPayload (encodeFields c p) = Except.ok p
  unfold encodeFields
  refine Eq.trans (fold_segInt _ _ _ _ ({ ID := p.ID, Number := "", Config := none, Type' := "", State := "", Status := 0, Result := 0, StatusMessage := "", ResultMessage := "", StartedAt := "", FinishedAt := "", Duration := 0, BuildURL := "", CommitID := 0, Commit := "", BaseCommit := "", HeadCommit := "", Branch := "", Message := "", CompareURL := "", CommitedAt := "", AuthorName := "", AuthorEmail := "", CommiterName := "", CommiterEmail := "", PullRequest := 0, PullRequestNumber := 0, PullRequestTitle := "", Tag := "", Repository := none } : Payload) _ rfl (fun h => by rw [h]; try rfl)) ?_
  refine Eq.trans (fold_segStr _ _ _ _ ({ ID := p.ID, Number := p.Number, Config := none, Type' := "", State := "", Status := 0, Result := 0, StatusMessage := "", ResultMessage := "", StartedAt := "", FinishedAt := "", Duration := 0, BuildURL := "", CommitID := 0, Commit := "", BaseCommit := "", HeadCommit := "", Branch := "", Message := "", CompareURL := "", CommitedAt := "", AuthorName := "", AuthorEmail := "", CommiterName := "", CommiterEmail := "", PullRequest := 0, PullRequestNumber := 0, PullRequestTitle := "", Tag := "", Repository := none } : Payload) _ rfl (fun h => by rw [h]; try rfl)) ?_
  refine Eq.trans (fold_config_seg c _ p.Config _ (by rfl)) ?_
  refine Eq.trans (fold_segStr _ _ _ _ ({ ID := p.ID, Number := p.Number, Config := p.Config, Type' := p.Type', State := "", Status := 0, Result := 0, StatusMessage := "", ResultMessage := "", StartedAt := "", FinishedAt := "", Duration := 0, BuildURL := "", CommitID := 0, Commit := "", BaseCommit := "", HeadCommit := "", Branch := "", Message := "", CompareURL := "", CommitedAt := "", AuthorName := "", AuthorEmail := "", CommiterName := "", CommiterEmail := "", PullRequest := 0, PullRequestNumber := 0, PullRequestTitle := "", Tag := "", Repository := none } : Payload) _ rfl (fun h => by rw [h]; try rfl)) ?_
  refine Eq.trans (fold_segStr _ _ _ _ ({ ID := p.ID, Number := p.Number, Config := p.Config, Type' := p.Type', State := p.State, Status := 0, Result := 0, StatusMessage := "", ResultMessage := "", StartedAt := "", FinishedAt := "", Duration := 0, BuildURL := "", CommitID := 0, Commit := "", BaseCommit := "", HeadCommit := "", Branch := "", Message := "", CompareURL := "", CommitedAt := "", AuthorName := "", AuthorEmail := "", CommiterName := "", CommiterEmail := "", PullRequest := 0, PullRequestNumber := 0, PullRequestTitle := "", Tag := "", Repository := none } : Payload) _ rfl (fun h => by rw [h]; try rfl)) ?_
  refine Eq.trans (fold_segInt _ _ _ _ ({ ID := p.ID, Number := p.Number, Config := p.Config, Type' := p.Type', State := p.State, Status := p.Status, Result := 0, StatusMessage := "", ResultMessage := "", StartedAt := "", FinishedAt := "", Duration := 0, BuildURL := "", CommitID := 0, Commit := "", BaseCommit := "", HeadCommit := "", Branch := "", Message := "", CompareURL := "", CommitedAt := "", AuthorName := "", AuthorEmail := "", CommiterName := "", CommiterEmail := "", PullRequest := 0, PullRequestNumber := 0, PullRequestTitle := "", Tag := "", Repository := none } : Payload) _ rfl (fun h => by rw [h]; try rfl)) ?_
  refine Eq.trans (fold_segInt _ _ _ _ ({ ID := p.ID, Number := p.Number, Config := p.Config, Type' := p.Type', State := p.State, Status := p.Status, Result := p.Result, StatusMessage := "", ResultMessage := "", StartedAt := "", FinishedAt := "", Duration := 0, BuildURL := "", CommitID := 0, Commit := "", BaseCommit := "", HeadCommit := "", Branch := "", Message := "", CompareURL := "", CommitedAt := "", AuthorName := "", AuthorEmail := "", CommiterName := "", CommiterEmail := "", PullRequest := 0, PullRequestNumber := 0, PullRequestTitle := "", Tag := "", Repository := none } : Payload) _ rfl (fun h => by rw [h]; try rfl)) ?_
  refine Eq.trans (fold_segStr _ _ _ _ ({ ID := p.ID, Number := p.Number, Config := p.Config, Type' := p.Type', State := p.State, Status := p.Status, Result := p.Result, StatusMessage := p.StatusMessage, ResultMessage := "", StartedAt := "", FinishedAt := "", Duration := 0, BuildURL := "", CommitID := 0, Commit := "", BaseCommit := "", HeadCommit := "", Branch := "", Message := "", CompareURL := "", CommitedAt := "", AuthorName := "", AuthorEmail := "", CommiterName := "", CommiterEmail := "", PullRequest := 0, PullRequestNumber := 0, PullRequestTitle := "", Tag := "", Repository := none } : Payload) _ rfl (fun h => by rw [h]; try rfl)) ?_
  refine Eq.trans (fold_segStr _ _ _ _ ({ ID := p.ID, Number := p.Number, Config := p.Config, Type' := p.Type', State := p.State, Status := p.Status, Result := p.Result, StatusMessage := p.StatusMessage, ResultMessage := p.ResultMessage, StartedAt := "", FinishedAt := "", Duration := 0, BuildURL := "", CommitID := 0, Commit := "", BaseCommit := "", HeadCommit := "", Branch := "", Message := "", CompareURL := "", CommitedAt := "", AuthorName := "", AuthorEmail := "", CommiterName := "", CommiterEmail := "", PullRequest := 0, PullRequestNumber := 0, PullRequestTitle := "", Tag := "", Repository := none } : Payload) _ rfl (fun h => by rw [h]; try rfl)) ?_
  refine Eq.trans (fold_started_at c _ p.StartedAt _) ?_
  refine Eq.trans (fold_finished_at c _ p.FinishedAt _) ?_
  refine Eq.trans (fold_segInt _ _ _ _ ({ ID := p.ID, Number := p.Number, Config := p.Config, Type' := p.Type', State := p.State, Status := p.Status, Result := p.Result, StatusMessage := p.StatusMessage, ResultMessage := p.ResultMessage, StartedAt := p.StartedAt, FinishedAt := p.FinishedAt, Duration := p.Duration, BuildURL := "", CommitID := 0, Commit := "", BaseCommit := "", HeadCommit := "", Branch := "", Message := "", CompareURL := "", CommitedAt := "", AuthorName := "", AuthorEmail := "", CommiterName := "", CommiterEmail := "", PullRequest := 0, PullRequestNumber := 0, PullRequestTitle := "", Tag := "", Repository := none } : Payload) _ rfl (fun h => by rw [h]; try rfl)) ?_
  refine Eq.trans (fold_segStr _ _ _ _ ({ ID := p.ID, Number := p.Number, Config := p.Config, Type' := p.Type', State := p.State, Status := p.Status, Result := p.Result, StatusMessage := p.StatusMessage, ResultMessage := p.ResultMessage, StartedAt := p.StartedAt, FinishedAt := p.FinishedAt, Duration := p.Duration, BuildURL := p.BuildURL, CommitID := 0, Commit := "", BaseCommit := "", HeadCommit := "", Branch := "", Message := "", CompareURL := "", CommitedAt := "", AuthorName := "", AuthorEmail := "", CommiterName := "", CommiterEmail := "", PullRequest := 0, PullRequestNumber := 0, PullRequestTitle := "", Tag := "", Repository := none } : Payload) _ rfl (fun h => by rw [h]; try rfl)) ?_
  refine Eq.trans (fold_segInt _ _ _ _ ({ ID := p.ID, Number := p.Number, Config := p.Config, Type' := p.Type', State := p.State, Status := p.Status, Result := p.Result, StatusMessage := p.StatusMessage, ResultMessage := p.ResultMessage, StartedAt := p.StartedAt, FinishedAt := p.FinishedAt, Duration := p.Duration, BuildURL := p.BuildURL, CommitID := p.CommitID, Commit := "", BaseCommit := "", HeadCommit := "", Branch := "", Message := "", CompareURL := "", CommitedAt := "", AuthorName := "", AuthorEmail := "", CommiterName := "", CommiterEmail := "", PullRequest := 0, PullRequestNumber := 0, PullRequestTitle := "", Tag := "", Repository := none } : Payload) _ rfl (fun h => by rw [h]; try rfl)) ?_
  refine Eq.trans (fold_segStr _ _ _ _ ({ ID := p.ID, Number := p.Number, Config := p.Config, Type' := p.Type', State := p.State, Status := p.Status, Result := p.Result, StatusMessage := p.StatusMessage, ResultMessage := p.ResultMessage, StartedAt := p.StartedAt, FinishedAt := p.FinishedAt, Duration := p.Duration, BuildURL := p.BuildURL, CommitID := p.CommitID, Commit := p.Commit, BaseCommit := "", HeadCommit := "", Branch := "", Message := "", CompareURL := "", CommitedAt := "", AuthorName := "", AuthorEmail := "", CommiterName := "", CommiterEmail := "", PullRequest := 0, PullRequestNumber := 0, PullRequestTitle := "", Tag := "", Repository := none } : Payload) _ rfl (fun h => by rw [h]; try rfl)) ?_
  refine Eq.trans (fold_segStr _ _ _ _ ({ ID := p.ID, Number := p.Number, Config := p.Config, Type' := p.Type', State := p.State, Status := p.Status, Result := p.Result, StatusMessage := p.StatusMessage, ResultMessage := p.ResultMessage, StartedAt := p.StartedAt, FinishedAt := p.FinishedAt, Duration := p.Duration, BuildURL := p.BuildURL, CommitID := p.CommitID, Commit := p.Commit, BaseCommit := p.BaseCommit, HeadCommit := "", Branch := "", Message := "", CompareURL := "", CommitedAt := "", AuthorName := "", AuthorEmail := "", CommiterName := "", CommiterEmail := "", PullRequest := 0, PullRequestNumber := 0, PullRequestTitle := "", Tag := "", Repository := none } : Payload) _ rfl (fun h => by rw [h]; try rfl)) ?_
  refine Eq.trans (fold_segStr _ _ _ _ ({ ID := p.ID, Number := p.Number, Config := p.Config, Type' := p.Type', State := p.State, Status := p.Status, Result := p.Result, StatusMessage := p.StatusMessage, ResultMessage := p.ResultMessage, StartedAt := p.StartedAt, FinishedAt := p.FinishedAt, Duration := p.Duration, BuildURL := p.BuildURL, CommitID := p.CommitID, Commit := p.Commit, BaseCommit := p.BaseCommit, HeadCommit := p.HeadCommit, Branch := "", Message := "", CompareURL := "", CommitedAt := "", AuthorName := "", AuthorEmail := "", CommiterName := "", CommiterEmail := "", PullRequest := 0, PullRequestNumber := 0, PullRequestTitle := "", Tag := "", Repository := none } : Payload) _ rfl (fun h => by rw [h]; try rfl)) ?_
  refine Eq.trans (fold_segStr _ _ _ _ ({ ID := p.ID, Number := p.Number, Config := p.Config, Type' := p.Type', State := p.State, Status := p.Status, Result := p.Result, StatusMessage := p.StatusMessage, ResultMessage := p.ResultMessage, StartedAt := p.StartedAt, FinishedAt := p.FinishedAt, Duration := p.Duration, BuildURL := p.BuildURL, CommitID := p.CommitID, Commit := p.Commit, BaseCommit := p.BaseCommit, HeadCommit := p.HeadCommit, Branch := p.Branch, Message := "", CompareURL := "", CommitedAt := "", AuthorName := "", AuthorEmail := "", CommiterName := "", CommiterEmail := "", PullRequest := 0, PullRequestNumber := 0, PullRequestTitle := "", Tag := "", Repository := none } : Payload) _ rfl (fun h => by rw [h]; try rfl)) ?_
  refine Eq.trans (fold_segStr _ _ _ _ ({ ID := p.ID, Number := p.Number, Config := p.Config, Type' := p.Type', State := p.State, Status := p.Status, Result := p.Result, StatusMessage := p.StatusMessage, ResultMessage := p.ResultMessage, StartedAt := p.StartedAt, FinishedAt := p.FinishedAt, Duration := p.Duration, BuildURL := p.BuildURL, CommitID := p.CommitID, Commit := p.Commit, BaseCommit := p.BaseCommit, HeadCommit := p.HeadCommit, Branch := p.Branch, Message := p.Message, CompareURL := "", CommitedAt := "", AuthorName := "", AuthorEmail := "", CommiterName := "", CommiterEmail := "", PullRequest := 0, PullRequestNumber := 0, PullRequestTitle := "", Tag := "", Repository := none } : Payload) _ rfl (fun h => by rw [h]; try rfl)) ?_
  refine Eq.trans (fold_segStr _ _ _ _ ({ ID := p.ID, Number := p.Number, Config := p.Config, Type' := p.Type', State := p.State, Status := p.Status, Result := p.Result, StatusMessage := p.StatusMessage, ResultMessage := p.ResultMessage, StartedAt := p.StartedAt, FinishedAt := p.FinishedAt, Duration := p.Duration, BuildURL := p.BuildURL, CommitID := p.CommitID, Commit := p.Commit, BaseCommit := p.BaseCommit, HeadCommit := p.HeadCommit, Branch := p.Branch, Message := p.Message, CompareURL := p.CompareURL, CommitedAt := "", AuthorName := "", AuthorEmail := "", CommiterName := "", CommiterEmail := "", PullRequest := 0, PullRequestNumber := 0, PullRequestTitle := "", Tag := "", Repository := none } : Payload) _ rfl (fun h => by rw [h]; try rfl)) ?_
  refine Eq.trans (fold_commited_at c _ p.CommitedAt _) ?_
  refine Eq.trans (fold_segStr _ _ _ _ ({ ID := p.ID, Number := p.Number, Config := p.Config, Type' := p.Type', State := p.State, Status := p.Status, Result := p.Result, StatusMessage := p.StatusMessage, ResultMessage := p.ResultMessage, StartedAt := p.StartedAt, FinishedAt := p.FinishedAt, Duration := p.Duration, BuildURL := p.BuildURL, CommitID := p.CommitID, Commit := p.Commit, BaseCommit := p.BaseCommit, HeadCommit := p.HeadCommit, Branch := p.Branch, Message := p.Message, CompareURL := p.CompareURL, CommitedAt := p.CommitedAt, AuthorName := p.AuthorName, AuthorEmail := "", CommiterName := "", CommiterEmail := "", PullRequest := 0, PullRequestNumber := 0, PullRequestTitle := "", Tag := "", Repository := none } : Payload) _ rfl (fun h => by rw [h]; try rfl)) ?_
  refine Eq.trans (fold_segStr _ _ _ _ ({ ID := p.ID, Number := p.Number, Config := p.Config, Type' := p.Type', State := p.State, Status := p.Status, Result := p.Result, StatusMessage := p.StatusMessage, ResultMessage := p.ResultMessage, StartedAt := p.StartedAt, FinishedAt := p.FinishedAt, Duration := p.Duration, BuildURL := p.BuildURL, CommitID := p.CommitID, Commit := p.Commit, BaseCommit := p.BaseCommit, HeadCommit := p.HeadCommit, Branch := p.Branch, Message := p.Message, CompareURL := p.CompareURL, CommitedAt := p.CommitedAt, AuthorName := p.AuthorName, AuthorEmail := p.AuthorEmail, CommiterName := "", CommiterEmail := "", PullRequest := 0, PullRequestNumber := 0, PullRequestTitle := "", Tag := "", Repository := none } : Payload) _ rfl (fun h => by rw [h]; try rfl)) ?_
  refine Eq.trans (fold_segStr _ _ _ _ ({ ID := p.ID, Number := p.Number, Config := p.Config, Type' := p.Type', State := p.State, Status := p.Status, Result := p.Result, StatusMessage := p.StatusMessage, ResultMessage := p.ResultMessage, StartedAt := p.StartedAt, FinishedAt := p.FinishedAt, Duration := p.Duration, BuildURL := p.BuildURL, CommitID := p.CommitID, Commit := p.Commit, BaseCommit := p.BaseCommit, HeadCommit := p.HeadCommit, Branch := p.Branch, Message := p.Message, CompareURL := p.CompareURL, CommitedAt := p.CommitedAt, AuthorName := p.AuthorName, AuthorEmail := p.AuthorEmail, CommiterName := p.CommiterName, CommiterEmail := "", PullRequest := 0, PullRequestNumber := 0, PullRequestTitle := "", Tag := "", Repository := none } : Payload) _ rfl (fun h => by rw [h]; try rfl)) ?_
  refine Eq.trans (fold_segStr _ _ _ _ ({ ID := p.ID, Number := p.Number, Config := p.Config, Type' := p.Type', State := p.State, Status := p.Status, Result := p.Result, StatusMessage := p.StatusMessage, ResultMessage := p.ResultMessage, StartedAt := p.StartedAt, FinishedAt := p.FinishedAt, Duration := p.Duration, BuildURL := p.BuildURL, CommitID := p.CommitID, Commit := p.Commit, BaseCommit := p.BaseCommit, HeadCommit := p.HeadCommit, Branch := p.Branch, Message := p.Message, CompareURL := p.CompareURL, CommitedAt := p.CommitedAt, AuthorName := p.AuthorName, AuthorEmail := p.AuthorEmail, CommiterName := p.CommiterName, CommiterEmail := p.CommiterEmail, PullRequest := 0, PullRequestNumber := 0, PullRequestTitle := "", Tag := "", Repository := none } : Payload) _ rfl (fun h => by rw [h]; try rfl)) ?_
  refine Eq.trans (fold_segInt _ _ _ _ ({ ID := p.ID, Number := p.Number, Config := p.Config, Type' := p.Type', State := p.State, Status := p.Status, Result := p.Result, StatusMessage := p.StatusMessage, ResultMessage := p.ResultMessage, StartedAt := p.StartedAt, FinishedAt := p.FinishedAt, Duration := p.Duration, BuildURL := p.BuildURL, CommitID := p.CommitID, Commit := p.Commit, BaseCommit := p.BaseCommit, HeadCommit := p.HeadCommit, Branch := p.Branch, Message := p.Message, CompareURL := p.CompareURL, CommitedAt := p.CommitedAt, AuthorName := p.AuthorName, AuthorEmail := p.AuthorEmail, CommiterName := p.CommiterName, CommiterEmail := p.CommiterEmail, PullRequest := p.PullRequest, PullRequestNumber := 0, PullRequestTitle := "", Tag := "", Repository := none } : Payload) _ rfl (fun h => by rw [h]; try rfl)) ?_
  refine Eq.trans (fold_segInt _ _ _ _ ({ ID := p.ID, Number := p.Number, Config := p.Config, Type' := p.Type', State := p.State, Status := p.Status, Result := p.Result, StatusMessage := p.StatusMessage, ResultMessage := p.ResultMessage, StartedAt := p.StartedAt, FinishedAt := p.FinishedAt, Duration := p.Duration, BuildURL := p.BuildURL, CommitID := p.CommitID, Commit := p.Commit, BaseCommit := p.BaseCommit, HeadCommit := p.HeadCommit, Branch := p.Branch, Message := p.Message, CompareURL := p.CompareURL, CommitedAt := p.CommitedAt, AuthorName := p.AuthorName, AuthorEmail := p.AuthorEmail, CommiterName := p.CommiterName, CommiterEmail := p.CommiterEmail, PullRequest := p.PullRequest, PullRequestNumber := p.PullRequestNumber, PullRequestTitle := "", Tag := "", Repository := none } : Payload) _ rfl (fun h => by rw [h]; try rfl)) ?_
  refine Eq.trans (fold_segStr _ _ _ _ ({ ID := p.ID, Number := p.Number, Config := p.Config, Type' := p.Type', State := p.State, Status := p.Status, Result := p.Result, StatusMessage := p.StatusMessage, ResultMessage := p.ResultMessage, StartedAt := p.StartedAt, FinishedAt := p.FinishedAt, Duration := p.Duration, BuildURL := p.BuildURL, CommitID := p.CommitID, Commit := p.Commit, BaseCommit := p.BaseCommit, HeadCommit := p.HeadCommit, Branch := p.Branch, Message := p.Message, CompareURL := p.CompareURL, CommitedAt := p.CommitedAt, AuthorName := p.AuthorName, AuthorEmail := p.AuthorEmail, CommiterName := p.CommiterName, CommiterEmail := p.CommiterEmail, PullRequest := p.PullRequest, PullRequestNumber := p.PullRequestNumber, PullRequestTitle := p.PullRequestTitle, Tag := "", Repository := none } : Payload) _ rfl (fun h => by rw [h]; try rfl)) ?_
  refine Eq.trans (fold_segStr _ _ _ _ ({ ID := p.ID, Number := p.Number, Config := p.Config, Type' := p.Type', State := p.State, Status := p.Status, Result := p.Result, StatusMessage := p.StatusMessage, ResultMessage := p.ResultMessage, StartedAt := p.StartedAt, FinishedAt := p.FinishedAt, Duration := p.Duration, BuildURL := p.BuildURL, CommitID := p.CommitID, Commit := p.Commit, BaseCommit := p.BaseCommit, HeadCommit := p.HeadCommit, Branch := p.Branch, Message := p.Message, CompareURL := p.CompareURL, CommitedAt := p.CommitedAt, AuthorName := p.AuthorName, AuthorEmail := p.AuthorEmail, CommiterName := p.CommiterName, CommiterEmail := p.CommiterEmail, PullRequest := p.PullRequest, PullRequestNumber := p.PullRequestNumber, PullRequestTitle := p.PullRequestTitle, Tag := p.Tag, Repository := none } : Payload) _ rfl (fun h => by rw [h]; try rfl)) ?_
  exact fold_repo_final c _ p.Repository (by rfl)
